import Mathlib

/-!
Shallow embedding of `src/train.py` (class `GANTrainer`) from the
`lgps_pytorch` repository.

Modelling conventions:

* Loss scalars are `FVal`: either a rational number or NaN.  Rationals stand
  for the real-valued tensors of the numerical library; NaN is the one
  distinguished non-numeric value the trainer inspects.
* External collaborators (the model's generator/discriminator forward passes,
  the combined segmentation loss, binary cross-entropy, the metrics computer,
  and the effect of `loss.backward(); optimizer.step()` on the owning
  sub-network's parameters and Adam state) are fields of an `Externals`
  record, universally quantified in every theorem.  The fact that
  `optimizer_G` is built over `model.generator.parameters()` only, and
  `optimizer_D` over `model.discriminator.parameters()` only
  (`_setup_training`, train.py lines 285-294), together with the
  `mask_fakes.detach()` on line 205 that severs the discriminator loss from
  the generator's graph, is embedded in the types of `stepG` and `stepD`:
  each consumes and produces only its own sub-network's parameters and
  optimizer state.
* Python exceptions are `Except` values carrying the trainer state at the
  raise point, so "no weight update occurred" is statable about failing runs.
* `tqdm` progress state (`pbar.n`) is an explicit natural-number counter.
-/

namespace LGPS

/-- A scalar loss value as the trainer sees it: a real number (modelled as a
rational) or NaN. -/
inductive FVal where
  | nan : FVal
  | num : ℚ → FVal
deriving DecidableEq

/-- Modelled from the spec: `check_loss_nan` comes from the repository's
`utils` module, which is not under `src/`; the spec says detection inspects
the scalar immediately after computation and reports whether it is NaN. -/
def check_loss_nan : FVal → Bool
  | .nan => true
  | .num _ => false

/-- Addition of loss scalars; NaN propagates (as in floating point). -/
def FVal.add : FVal → FVal → FVal
  | .num a, .num b => .num (a + b)
  | _, _ => .nan

/-- The six segmentation metrics returned by the external
`SegmentationMetrics` collaborator (`compute()` mapping restricted to the keys
the trainer reads). -/
structure Metrics where
  mean_iou : ℚ
  «recall» : ℚ
  precision : ℚ
  accuracy : ℚ
  dice : ℚ
  f2 : ℚ
deriving DecidableEq

/-- The all-zero metric accumulator created at the top of each epoch
(train.py lines 153-160 and 240-247). -/
def Metrics.zero : Metrics := ⟨0, 0, 0, 0, 0, 0⟩

/-- Componentwise accumulation `metrics[key] += metric[key]`
(train.py lines 182-184 and 263-265). -/
def Metrics.add (a b : Metrics) : Metrics :=
  ⟨a.mean_iou + b.mean_iou, a.«recall» + b.«recall», a.precision + b.precision,
   a.accuracy + b.accuracy, a.dice + b.dice, a.f2 + b.f2⟩

/-- Componentwise division by a batch count, `metrics[key] / pbar.n`
(train.py lines 186-193 and 267-275). -/
def Metrics.divNat (a : Metrics) (n : ℕ) : Metrics :=
  ⟨a.mean_iou / n, a.«recall» / n, a.precision / n,
   a.accuracy / n, a.dice / n, a.f2 / n⟩

/-- Modelled from the spec: the external library's step-decay scheduler
(`optim.lr_scheduler.StepLR`), described by the spec as "step-decay: multiply
by a fixed factor every fixed number of epochs".  `last_epoch` counts the
`step()` calls made so far. -/
structure StepLR where
  lr : ℚ
  gamma : ℚ
  step_size : ℕ
  last_epoch : ℕ
deriving DecidableEq

/-- One `scheduler.step()`: advance the epoch counter and multiply the
learning rate by `gamma` whenever the new counter is a multiple of
`step_size`. -/
def StepLR.step (s : StepLR) : StepLR :=
  let e := s.last_epoch + 1
  if e % s.step_size = 0 then
    { s with last_epoch := e, lr := s.lr * s.gamma }
  else
    { s with last_epoch := e }

/-- Iterated scheduler stepping. -/
def StepLR.stepIter (s : StepLR) : ℕ → StepLR
  | 0 => s
  | k + 1 => (s.stepIter k).step

/-- The external collaborators the trainer calls, abstracted as pure
functions.  `G`/`D` are the generator's and discriminator's parameter spaces,
`OG`/`OD` the corresponding Adam optimizer states, `Img`/`Msk`/`Sc` the image,
mask and discriminator-score tensor spaces. -/
structure Externals (G D OG OD Img Msk Sc : Type) where
  /-- `model.generate(data)`: generator forward pass. -/
  generate : G → Img → Msk
  /-- `model.discriminator(data, mask)`: discriminator forward pass. -/
  discriminate : D → Img → Msk → Sc
  /-- `CombinedLoss()(fake_masks, targets)`: generator segmentation loss. -/
  generator_loss : Msk → Msk → FVal
  /-- `nn.BCELoss()(output, labels)`: discriminator binary loss. -/
  bce : Sc → Sc → FVal
  /-- `torch.ones_like(x) * c`. -/
  ones_scaled : Sc → ℚ → Sc
  /-- `torch.zeros_like(x)`. -/
  zeros_like : Sc → Sc
  /-- Net effect of one `update/compute/reset` cycle of the external
  `SegmentationMetrics` object on a single batch (the object is reset after
  every batch, so each cycle is a pure function of that batch). -/
  compute_metrics : Msk → Msk → Metrics
  /-- Net effect of `g_seg_loss.backward(); optimizer_G.step()` on the
  generator parameters and `optimizer_G`'s Adam state, as a function of the
  batch; `optimizer_G` owns `model.generator.parameters()` only. -/
  stepG : OG → G → Img → Msk → G × OG
  /-- Net effect of `d_loss.backward(); optimizer_D.step()` on the
  discriminator parameters and `optimizer_D`'s Adam state; `optimizer_D` owns
  `model.discriminator.parameters()` only, and the fake mask is detached, so
  no generator parameter appears in this signature. -/
  stepD : OD → D → Img → Msk → Msk → D × OD

/-- One line of the metrics CSV file: the header written at setup, or a data
row appended per epoch. -/
inductive CsvLine where
  | header : List String → CsvLine
  | row : List ℚ → CsvLine
deriving DecidableEq

/-- A checkpoint file written by `save_model`. -/
inductive Ckpt where
  | last : Ckpt
  | best : Ckpt
deriving DecidableEq

/-- The mutable state of a `GANTrainer` that the claims are about: the two
sub-networks' parameters, the two Adam states, the two schedulers, the
best-validation-loss scalar and the metrics CSV file contents.  Gradient
buffers are not modelled (`zero_grad()` clears them and never touches
parameters), and the text log is ignored. -/
structure TrainerState (G D OG OD : Type) where
  gParams : G
  dParams : D
  optG : OG
  optD : OD
  schedG : StepLR
  schedD : StepLR
  /-- `self.best_val_loss`; `none` models the initial `float("inf")`. -/
  best_val_loss : Option ℚ
  csv : List CsvLine
deriving DecidableEq

/-- The errors a training run can raise: the six `ValueError("NaN in ...")`
raises of train.py, plus the two Python failures latent in an empty epoch
(`ZeroDivisionError` from `total_g_loss / len(self.train_loader)` with an
integer zero over a zero length, and `NameError` from reading the loop-local
`logs` when the loop body never ran). -/
inductive TrainError where
  | nanGSeg : TrainError
  | nanDReal : TrainError
  | nanDFake : TrainError
  | nanGLoss : TrainError
  | nanDLoss : TrainError
  | nanVal : TrainError
  | zeroDivision : TrainError
  | unboundLocal : TrainError
deriving DecidableEq

section Trainer

variable {G D OG OD Img Msk Sc : Type}

/-- `mask_fakes.detach()` (train.py line 205): the detached tensor has the
same value; severing the autodiff graph is reflected in `Externals.stepD`
taking no generator parameters. -/
def detach (m : Msk) : Msk := m

/-- `GANTrainer.train_generator` (train.py lines 223-233): forward the
generator, compute the segmentation loss, raise on NaN before any optimizer
step, otherwise backpropagate and step `optimizer_G`.  Returns
`(g_seg_loss.item(), fake_masks)` plus the updated state; an error carries the
state at the raise point. -/
def train_generator (E : Externals G D OG OD Img Msk Sc)
    (s : TrainerState G D OG OD) (data : Img) (targets : Msk) :
    Except (TrainError × TrainerState G D OG OD) (ℚ × Msk × TrainerState G D OG OD) :=
  let fake_masks := E.generate s.gParams data
  let g_seg_loss := E.generator_loss fake_masks targets
  match g_seg_loss with
  | .nan => .error (.nanGSeg, s)
  | .num q =>
      let st := E.stepG s.optG s.gParams data targets
      .ok (q, fake_masks, { s with gParams := st.1, optG := st.2 })

/-- `GANTrainer.train_discriminator` (train.py lines 202-221): detach the fake
mask, score the real and fake pairs, compute BCE against the soft real label
0.9 and the zero fake label, raising on a NaN in either loss before the
optimizer step; otherwise backpropagate the summed loss and step
`optimizer_D`.  Returns `d_loss.item()` and the updated state. -/
def train_discriminator (E : Externals G D OG OD Img Msk Sc)
    (s : TrainerState G D OG OD) (data : Img) (mask_fakes : Msk) (targets : Msk) :
    Except (TrainError × TrainerState G D OG OD) (ℚ × TrainerState G D OG OD) :=
  let mf := detach mask_fakes
  let real_output := E.discriminate s.dParams data targets
  let fake_output := E.discriminate s.dParams data mf
  let real_labels := E.ones_scaled real_output (9 / 10)
  let fake_labels := E.zeros_like fake_output
  match E.bce real_output real_labels with
  | .nan => .error (.nanDReal, s)
  | .num q1 =>
      match E.bce fake_output fake_labels with
      | .nan => .error (.nanDFake, s)
      | .num q2 =>
          let st := E.stepD s.optD s.dParams data mf targets
          .ok (q1 + q2, { s with dParams := st.1, optD := st.2 })

/-- The accumulator threaded through the body of `train_one_epoch`
(train.py lines 161-196): `pbar.n`, `total_g_loss`, `total_d_loss`, the
metric sums, the loop-local `logs` (as an `Option`, since Python leaves it
unbound when the loop body never runs), and the trainer state. -/
structure EpochAcc (G D OG OD : Type) where
  n : ℕ
  total_g_loss : ℚ
  total_d_loss : ℚ
  msum : Metrics
  logs : Option Metrics
  st : TrainerState G D OG OD

/-- The per-batch body of `train_one_epoch` (train.py lines 162-196): train
the generator, re-check its loss for NaN, train the discriminator, re-check,
accumulate metrics and losses, and recompute the progressive-average `logs`
with `pbar.n` as the divisor. -/
def epoch_body (E : Externals G D OG OD Img Msk Sc)
    (a : EpochAcc G D OG OD) (data : Img) (targets : Msk) :
    Except (TrainError × TrainerState G D OG OD) (EpochAcc G D OG OD) :=
  match train_generator E a.st data targets with
  | .error e => .error e
  | .ok (g_loss, fake_mask, s1) =>
      if check_loss_nan (.num g_loss) then .error (.nanGLoss, s1)
      else
        match train_discriminator E s1 data fake_mask targets with
        | .error e => .error e
        | .ok (d_loss, s2) =>
            if check_loss_nan (.num d_loss) then .error (.nanDLoss, s2)
            else
              let metric := E.compute_metrics fake_mask targets
              let msum := a.msum.add metric
              let n := a.n + 1
              .ok { n := n,
                    total_g_loss := a.total_g_loss + g_loss,
                    total_d_loss := a.total_d_loss + d_loss,
                    msum := msum,
                    logs := some (msum.divNat n),
                    st := s2 }

/-- The training loop of `train_one_epoch`, folded over the batches the
`DataLoader` yields. -/
def epoch_loop (E : Externals G D OG OD Img Msk Sc)
    (a : EpochAcc G D OG OD) :
    List (Img × Msk) → Except (TrainError × TrainerState G D OG OD) (EpochAcc G D OG OD)
  | [] => .ok a
  | (data, targets) :: rest =>
      match epoch_body E a data targets with
      | .error e => .error e
      | .ok a1 => epoch_loop E a1 rest

/-- `GANTrainer.train_one_epoch` (train.py lines 148-200): run the loop, then
compute `total / len(self.train_loader)` — a `ZeroDivisionError` when the
loader is empty, because both totals and the length are the integer zero —
and return the averages together with the loop-local `logs`, whose read
raises a `NameError` when the loop body never ran. -/
def train_one_epoch (E : Externals G D OG OD Img Msk Sc)
    (s : TrainerState G D OG OD) (batches : List (Img × Msk)) :
    Except (TrainError × TrainerState G D OG OD)
      (ℚ × ℚ × Metrics × TrainerState G D OG OD) :=
  match epoch_loop E ⟨0, 0, 0, Metrics.zero, none, s⟩ batches with
  | .error e => .error e
  | .ok a =>
      if batches.length = 0 then .error (.zeroDivision, a.st)
      else
        match a.logs with
        | none => .error (.unboundLocal, a.st)
        | some logs =>
            .ok (a.total_g_loss / batches.length,
                 a.total_d_loss / batches.length, logs, a.st)

/-- The loss the validation loop computes on one batch
(train.py lines 254-255): the generator's segmentation loss on the
generated output.  The whole loop runs under `torch.no_grad()` with the
parameters fixed, so it is a function of the generator parameters and the
batch alone. -/
def val_batch_loss (E : Externals G D OG OD Img Msk Sc)
    (gp : G) (data : Img) (targets : Msk) : FVal :=
  E.generator_loss (E.generate gp data) targets

/-- The accumulator of the validation loop: `pbar.n`, `total_val_loss`, the
metric sums, and (for the progress display) the list of per-batch
`combined_loss.item() / pbar.n` values shown by `pbar.set_postfix`. -/
structure ValAcc where
  n : ℕ
  total_val_loss : ℚ
  msum : Metrics
  shown : List ℚ

/-- The loop of `GANTrainer.validate` (train.py lines 248-276): per batch,
compute the loss, raise on NaN, accumulate the loss and metrics, and display
`combined_loss.item() / pbar.n` as the `val_loss` postfix entry. -/
def validate_loop (E : Externals G D OG OD Img Msk Sc) (gp : G)
    (a : ValAcc) : List (Img × Msk) → Except TrainError ValAcc
  | [] => .ok a
  | (data, targets) :: rest =>
      match val_batch_loss E gp data targets with
      | .nan => .error .nanVal
      | .num q =>
          let n := a.n + 1
          validate_loop E gp
            { n := n,
              total_val_loss := a.total_val_loss + q,
              msum := a.msum.add (E.compute_metrics (E.generate gp data) targets),
              shown := a.shown ++ [q / n] }
            rest

/-- `GANTrainer.validate` (train.py lines 235-280): run the loop and return
`total_val_loss / len(self.val_loader)` — again a `ZeroDivisionError` on an
empty loader — together with the averaged metrics and, for inspection, the
per-batch displayed `val_loss` values.  No parameter is updated
(`torch.no_grad`), so the trainer state is returned unchanged; a NaN raise
also leaves it unchanged. -/
def validate (E : Externals G D OG OD Img Msk Sc)
    (s : TrainerState G D OG OD) (batches : List (Img × Msk)) :
    Except (TrainError × TrainerState G D OG OD) (ℚ × Metrics × List ℚ) :=
  match validate_loop E s.gParams ⟨0, 0, Metrics.zero, []⟩ batches with
  | .error e => .error (e, s)
  | .ok a =>
      if batches.length = 0 then .error (.zeroDivision, s)
      else
        .ok (a.total_val_loss / batches.length,
             a.msum.divNat batches.length, a.shown)

/-- The CSV header fields set up in `_setup_logging` (train.py lines 62-79),
in source order. -/
def csv_fields : List String :=
  ["epoch", "train_g_loss", "train_d_loss", "val_loss",
   "mean_iou", "recall", "precision", "accuracy", "dice", "f2",
   "train_mean_iou", "train_precision", "train_recall", "train_f2",
   "train_accuracy", "train_dice"]

/-- The values of the row `_log_to_csv` appends (train.py lines 119-146), in
`csv_fields` order.  (The Python dict literal lists the `val_loss` key twice
with the same value; the second assignment wins and the written row is as
below.) -/
def csv_row_values (epoch : ℕ) (train_g_loss train_d_loss val_loss : ℚ)
    (logs train_logs : Metrics) : List ℚ :=
  [(epoch : ℚ), train_g_loss, train_d_loss, val_loss,
   logs.mean_iou, logs.«recall», logs.precision, logs.accuracy,
   logs.dice, logs.f2,
   train_logs.mean_iou, train_logs.precision, train_logs.«recall»,
   train_logs.f2, train_logs.accuracy, train_logs.dice]

/-- The comparison on train.py line 111, `val_loss < self.best_val_loss`,
against a best-so-far that starts as `float("inf")` (modelled as `none`). -/
def lt_best (v : ℚ) : Option ℚ → Bool
  | none => true
  | some b => decide (v < b)

/-- Modelled from the spec: the checkpoint files `GANTrainer.save_model`
(train.py lines 328-340) writes through the model's `save_checkpoint` /
`save_best_checkpoint` collaborators (whose code is outside `src/`): the
`last_model` file always, then the `best_gan_model` file when `is_best`. -/
def save_model (is_best : Bool) : List Ckpt :=
  [Ckpt.last] ++ (if is_best then [Ckpt.best] else [])

/-- What one epoch of `GANTrainer.train` leaves behind, for the run trace:
the epoch's validation loss and the checkpoint files written. -/
structure EpochRecord where
  val_loss : ℚ
  saved : List Ckpt
deriving DecidableEq

/-- The data the two `DataLoader`s yield during one epoch: the training
batches and the validation batches. -/
structure EpochData (Img Msk : Type) where
  trainB : List (Img × Msk)
  valB : List (Img × Msk)

/-- The tail of one epoch of `GANTrainer.train` (train.py lines 104-117):
append the CSV row, compare the validation loss against `best_val_loss` and
update it on strict improvement, write the checkpoints (`last_model` always,
`best_gan_model` exactly on improvement), and step both schedulers once.
Returns the new state and the checkpoint files written. -/
def epoch_finish (epoch : ℕ) (train_g_loss train_d_loss val_loss : ℚ)
    (logs train_logs : Metrics) (s1 : TrainerState G D OG OD) :
    TrainerState G D OG OD × List Ckpt :=
  let s2 := { s1 with csv := s1.csv ++
    [CsvLine.row (csv_row_values epoch train_g_loss
      train_d_loss val_loss logs train_logs)] }
  let is_best := lt_best val_loss s2.best_val_loss
  let s3 := if is_best then
      { s2 with best_val_loss := some val_loss } else s2
  let saved := save_model is_best
  ({ s3 with schedG := s3.schedG.step, schedD := s3.schedD.step }, saved)

/-- The epoch loop of `GANTrainer.train` (train.py lines 88-117): per epoch,
run `train_one_epoch` and `validate`, then `epoch_finish` (CSV row, best-loss
update, checkpoints, scheduler steps).  Any raise aborts the remaining
epochs. -/
def train_loop (E : Externals G D OG OD Img Msk Sc) :
    TrainerState G D OG OD → ℕ → List (EpochData Img Msk) →
    Except (TrainError × TrainerState G D OG OD)
      (TrainerState G D OG OD × List EpochRecord)
  | s, _, [] => .ok (s, [])
  | s, epoch, ed :: rest =>
      match train_one_epoch E s ed.trainB with
      | .error e => .error e
      | .ok (train_g_loss, train_d_loss, train_logs, s1) =>
          match validate E s1 ed.valB with
          | .error e => .error e
          | .ok (val_loss, logs, _) =>
              let fin := epoch_finish (epoch + 1) train_g_loss train_d_loss
                val_loss logs train_logs s1
              match train_loop E fin.1 (epoch + 1) rest with
              | .error e => .error e
              | .ok (sF, recs) => .ok (sF, ⟨val_loss, fin.2⟩ :: recs)

/-- `GANTrainer.train` (train.py lines 84-117) on a state fresh out of
`__init__`: `_setup_logging` has just written the CSV header
(train.py lines 80-82), and the loop starts at epoch 0. -/
def GANTrainer.train (E : Externals G D OG OD Img Msk Sc)
    (s : TrainerState G D OG OD) (eds : List (EpochData Img Msk)) :
    Except (TrainError × TrainerState G D OG OD)
      (TrainerState G D OG OD × List EpochRecord) :=
  train_loop E { s with csv := [CsvLine.header csv_fields] } 0 eds

/-- The loss value the generator step returns, when it returns one: `none`
when the step raised.  Used to state that the step's loss is a function of
the generator weights and the batch alone. -/
def gen_loss_result (E : Externals G D OG OD Img Msk Sc)
    (s : TrainerState G D OG OD) (data : Img) (targets : Msk) : Option ℚ :=
  match train_generator E s data targets with
  | .ok (q, _, _) => some q
  | .error _ => none

/-- The running-minimum fold that `val_loss < self.best_val_loss` followed by
the conditional assignment performs across epochs. -/
def runMin (b : Option ℚ) (vs : List ℚ) : Option ℚ :=
  vs.foldl (fun acc v => if lt_best v acc then some v else acc) b

/-- Whether a CSV line is a data row of the width `_log_to_csv` writes. -/
def is_data_row : CsvLine → Bool
  | .header _ => false
  | .row vals => vals.length = 16

/-- The `.item()` of the validation loss on one batch (meaningful when that
loss is not NaN; a NaN raises before any use). -/
def val_loss_item (E : Externals G D OG OD Img Msk Sc)
    (gp : G) (b : Img × Msk) : ℚ :=
  match val_batch_loss E gp b.1 b.2 with
  | .nan => 0
  | .num q => q

/-- The per-batch `val_loss` values `pbar.set_postfix` displays during a
validation pass that starts with `pbar.n = n`: each batch's own loss divided
by the running batch index. -/
def shownOf (E : Externals G D OG OD Img Msk Sc) (gp : G) :
    ℕ → List (Img × Msk) → List ℚ
  | _, [] => []
  | n, b :: rest => (val_loss_item E gp b / (n + 1)) :: shownOf E gp (n + 1) rest

/-- Modelled from the spec: the number of CSV columns claim C5 and spec
section 6 describe — `epoch`, the train and validation generator and
discriminator losses (two losses for each of the two phases), and the six
metrics for both phases. -/
def claimed_column_count : ℕ := 1 + 2 * 2 + 2 * 6

/-- A concrete instantiation of the external collaborators over rational
"tensors", with constant finite losses, used to exercise the embedding on
closed inputs. -/
def exOk : Externals ℚ ℚ ℚ ℚ ℚ ℚ ℚ where
  generate := fun _ _ => 0
  discriminate := fun _ _ _ => 0
  generator_loss := fun _ _ => .num 1
  bce := fun _ _ => .num 1
  ones_scaled := fun _ c => c
  zeros_like := fun _ => 0
  compute_metrics := fun _ _ => Metrics.zero
  stepG := fun og g _ _ => (g + 1, og)
  stepD := fun od d _ _ _ => (d + 1, od)

/-- A concrete instantiation whose losses are all NaN, exercising the error
paths on closed inputs. -/
def exNan : Externals ℚ ℚ ℚ ℚ ℚ ℚ ℚ where
  generate := fun _ _ => 0
  discriminate := fun _ _ _ => 0
  generator_loss := fun _ _ => .nan
  bce := fun _ _ => .nan
  ones_scaled := fun _ c => c
  zeros_like := fun _ => 0
  compute_metrics := fun _ _ => Metrics.zero
  stepG := fun og g _ _ => (g + 1, og)
  stepD := fun od d _ _ _ => (d + 1, od)

/-- A concrete fresh trainer state: zero parameters, both schedulers at
learning rate 1 with decay factor 1/2 every 2 epochs, best loss at infinity,
CSV not yet set up. -/
def s0Q : TrainerState ℚ ℚ ℚ ℚ :=
  { gParams := 0, dParams := 0, optG := 0, optD := 0,
    schedG := ⟨1, 1/2, 2, 0⟩, schedD := ⟨1, 1/2, 2, 0⟩,
    best_val_loss := none, csv := [] }

/-- Two epochs of data, each with one training batch and one validation
batch. -/
def edsTwo : List (EpochData ℚ ℚ) :=
  [⟨[(0, 0)], [(0, 0)]⟩, ⟨[(0, 0)], [(0, 0)]⟩]

/-- The trainer state `GANTrainer.train exOk s0Q edsTwo` ends in: both
sub-networks stepped twice, both schedulers decayed once (epoch 2 is the
first multiple of the step size 2), the best validation loss 1 from epoch 1,
and a CSV with its header and one row per epoch. -/
def sF2 : TrainerState ℚ ℚ ℚ ℚ :=
  { gParams := 2, dParams := 2, optG := 0, optD := 0,
    schedG := ⟨1/2, 1/2, 2, 2⟩, schedD := ⟨1/2, 1/2, 2, 2⟩,
    best_val_loss := some 1,
    csv := [CsvLine.header csv_fields,
            CsvLine.row [1, 1, 2, 1, 0, 0, 0, 0, 0, 0, 0, 0, 0, 0, 0, 0],
            CsvLine.row [2, 1, 2, 1, 0, 0, 0, 0, 0, 0, 0, 0, 0, 0, 0, 0]] }

/-- The per-epoch trace of that run: epoch 1 improves on infinity and writes
both checkpoints, epoch 2 ties the best loss (1 < 1 fails) and writes only
`last_model`. -/
def recs2 : List EpochRecord :=
  [⟨1, [Ckpt.last, Ckpt.best]⟩, ⟨1, [Ckpt.last]⟩]

/-! ### Characterization lemmas for the two per-batch step functions -/

/-- Shorthand for the generator's segmentation loss on a batch as
`train_generator` computes it. -/
def gen_loss (E : Externals G D OG OD Img Msk Sc)
    (s : TrainerState G D OG OD) (data : Img) (targets : Msk) : FVal :=
  E.generator_loss (E.generate s.gParams data) targets

/-- Shorthand for the real-pair BCE loss of `train_discriminator`: the
discriminator's score of the true (image, mask) pair against the soft label
`0.9`. -/
def d_real_loss (E : Externals G D OG OD Img Msk Sc)
    (s : TrainerState G D OG OD) (data : Img) (targets : Msk) : FVal :=
  let real_output := E.discriminate s.dParams data targets
  E.bce real_output (E.ones_scaled real_output (9 / 10))

/-- Shorthand for the fake-pair BCE loss of `train_discriminator`: the
discriminator's score of the (image, detached fake mask) pair against the
zero label. -/
def d_fake_loss (E : Externals G D OG OD Img Msk Sc)
    (s : TrainerState G D OG OD) (data : Img) (mask_fakes : Msk) : FVal :=
  let fake_output := E.discriminate s.dParams data (detach mask_fakes)
  E.bce fake_output (E.zeros_like fake_output)

theorem train_generator_eq (E : Externals G D OG OD Img Msk Sc)
    (s : TrainerState G D OG OD) (data : Img) (targets : Msk) :
    train_generator E s data targets =
      match gen_loss E s data targets with
      | .nan => .error (.nanGSeg, s)
      | .num q => .ok (q, E.generate s.gParams data,
          { s with gParams := (E.stepG s.optG s.gParams data targets).1,
                   optG := (E.stepG s.optG s.gParams data targets).2 }) := rfl

theorem train_discriminator_eq (E : Externals G D OG OD Img Msk Sc)
    (s : TrainerState G D OG OD) (data : Img) (mask_fakes targets : Msk) :
    train_discriminator E s data mask_fakes targets =
      match d_real_loss E s data targets with
      | .nan => .error (.nanDReal, s)
      | .num q1 =>
          match d_fake_loss E s data mask_fakes with
          | .nan => .error (.nanDFake, s)
          | .num q2 => .ok (q1 + q2,
              { s with
                dParams := (E.stepD s.optD s.dParams data (detach mask_fakes) targets).1,
                optD := (E.stepD s.optD s.dParams data (detach mask_fakes) targets).2 }) := rfl

/-- On success the generator step rewrites only `gParams` and `optG`. -/
theorem train_generator_ok_state (E : Externals G D OG OD Img Msk Sc)
    {s s' : TrainerState G D OG OD} {data : Img} {targets : Msk} {q : ℚ} {fm : Msk}
    (h : train_generator E s data targets = .ok (q, fm, s')) :
    s' = { s with gParams := (E.stepG s.optG s.gParams data targets).1,
                  optG := (E.stepG s.optG s.gParams data targets).2 } := by
  rw [train_generator_eq] at h
  cases hg : gen_loss E s data targets with
  | nan => rw [hg] at h; exact absurd h (by simp)
  | num q0 => rw [hg] at h; simp only [Except.ok.injEq, Prod.mk.injEq] at h; exact h.2.2.symm

/-- On failure the generator step raises with the state untouched. -/
theorem train_generator_error_state (E : Externals G D OG OD Img Msk Sc)
    {s s' : TrainerState G D OG OD} {data : Img} {targets : Msk} {e : TrainError}
    (h : train_generator E s data targets = .error (e, s')) : s' = s := by
  rw [train_generator_eq] at h
  cases hg : gen_loss E s data targets with
  | nan => rw [hg] at h; simp only [Except.error.injEq, Prod.mk.injEq] at h; exact h.2.symm
  | num q0 => rw [hg] at h; exact absurd h (by simp)

/-- On success the discriminator step rewrites only `dParams` and `optD`. -/
theorem train_discriminator_ok_state (E : Externals G D OG OD Img Msk Sc)
    {s s' : TrainerState G D OG OD} {data : Img} {mask_fakes targets : Msk} {q : ℚ}
    (h : train_discriminator E s data mask_fakes targets = .ok (q, s')) :
    s' = { s with
      dParams := (E.stepD s.optD s.dParams data (detach mask_fakes) targets).1,
      optD := (E.stepD s.optD s.dParams data (detach mask_fakes) targets).2 } := by
  rw [train_discriminator_eq] at h
  cases hr : d_real_loss E s data targets with
  | nan => rw [hr] at h; exact absurd h (by simp)
  | num q1 =>
      rw [hr] at h
      cases hf : d_fake_loss E s data mask_fakes with
      | nan => rw [hf] at h; exact absurd h (by simp)
      | num q2 =>
          rw [hf] at h
          simp only [Except.ok.injEq, Prod.mk.injEq] at h
          exact h.2.symm

/-- On failure the discriminator step raises with the state untouched. -/
theorem train_discriminator_error_state (E : Externals G D OG OD Img Msk Sc)
    {s s' : TrainerState G D OG OD} {data : Img} {mask_fakes targets : Msk}
    {e : TrainError}
    (h : train_discriminator E s data mask_fakes targets = .error (e, s')) : s' = s := by
  rw [train_discriminator_eq] at h
  cases hr : d_real_loss E s data targets with
  | nan => rw [hr] at h; simp only [Except.error.injEq, Prod.mk.injEq] at h; exact h.2.symm
  | num q1 =>
      rw [hr] at h
      cases hf : d_fake_loss E s data mask_fakes with
      | nan => rw [hf] at h; simp only [Except.error.injEq, Prod.mk.injEq] at h; exact h.2.symm
      | num q2 => rw [hf] at h; exact absurd h (by simp)

/-- The generator step raises only the generator-loss NaN error. -/
theorem train_generator_error_tag (E : Externals G D OG OD Img Msk Sc)
    {s s' : TrainerState G D OG OD} {data : Img} {targets : Msk} {e : TrainError}
    (h : train_generator E s data targets = .error (e, s')) : e = .nanGSeg := by
  rw [train_generator_eq] at h
  cases hg : gen_loss E s data targets with
  | nan => rw [hg] at h; simp only [Except.error.injEq, Prod.mk.injEq] at h; exact h.1.symm
  | num q0 => rw [hg] at h; exact absurd h (by simp)

/-- The discriminator step raises only the real-loss or fake-loss NaN
errors. -/
theorem train_discriminator_error_tag (E : Externals G D OG OD Img Msk Sc)
    {s s' : TrainerState G D OG OD} {data : Img} {mask_fakes targets : Msk}
    {e : TrainError}
    (h : train_discriminator E s data mask_fakes targets = .error (e, s')) :
    e = .nanDReal ∨ e = .nanDFake := by
  rw [train_discriminator_eq] at h
  cases hr : d_real_loss E s data targets with
  | nan =>
      rw [hr] at h; simp only [Except.error.injEq, Prod.mk.injEq] at h
      exact Or.inl h.1.symm
  | num q1 =>
      rw [hr] at h
      cases hf : d_fake_loss E s data mask_fakes with
      | nan =>
          rw [hf] at h; simp only [Except.error.injEq, Prod.mk.injEq] at h
          exact Or.inr h.1.symm
      | num q2 => rw [hf] at h; exact absurd h (by simp)

/-! ### Lemmas about the per-epoch training loop -/

/-- A successful batch body leaves the scheduler, best-loss and CSV fields of
the trainer state untouched and binds `logs`. -/
theorem epoch_body_ok_spec (E : Externals G D OG OD Img Msk Sc)
    {a a' : EpochAcc G D OG OD} {data : Img} {targets : Msk}
    (h : epoch_body E a data targets = .ok a') :
    a'.st.schedG = a.st.schedG ∧ a'.st.schedD = a.st.schedD ∧
    a'.st.best_val_loss = a.st.best_val_loss ∧ a'.st.csv = a.st.csv ∧
    a'.logs.isSome = true := by
  unfold epoch_body at h
  cases h1 : train_generator E a.st data targets with
  | error e => rw [h1] at h; exact absurd h (by simp)
  | ok v =>
      obtain ⟨q, fm, s1⟩ := v
      rw [h1] at h
      simp only [check_loss_nan, Bool.false_eq_true, if_false] at h
      cases h2 : train_discriminator E s1 data fm targets with
      | error e => rw [h2] at h; exact absurd h (by simp)
      | ok w =>
          obtain ⟨dq, s2⟩ := w
          rw [h2] at h
          simp only [check_loss_nan, Bool.false_eq_true, if_false,
            Except.ok.injEq] at h
          have hs1 := train_generator_ok_state E h1
          have hs2 := train_discriminator_ok_state E h2
          subst h; subst hs1; subst hs2
          simp

/-- Batch-body errors are NaN errors in the generator loss or one of the two
discriminator losses. -/
theorem epoch_body_error_tag (E : Externals G D OG OD Img Msk Sc)
    {a : EpochAcc G D OG OD} {data : Img} {targets : Msk}
    {e : TrainError} {sE : TrainerState G D OG OD}
    (h : epoch_body E a data targets = .error (e, sE)) :
    e = .nanGSeg ∨ e = .nanDReal ∨ e = .nanDFake := by
  unfold epoch_body at h
  cases h1 : train_generator E a.st data targets with
  | error p =>
      obtain ⟨e1, s1⟩ := p
      rw [h1] at h
      simp only [Except.error.injEq, Prod.mk.injEq] at h
      exact Or.inl (h.1.symm.trans (train_generator_error_tag E h1))
  | ok v =>
      obtain ⟨q, fm, s1⟩ := v
      rw [h1] at h
      simp only [check_loss_nan, Bool.false_eq_true, if_false] at h
      cases h2 : train_discriminator E s1 data fm targets with
      | error p =>
          obtain ⟨e2, s2⟩ := p
          rw [h2] at h
          simp only [Except.error.injEq, Prod.mk.injEq] at h
          rcases train_discriminator_error_tag E h2 with h3 | h3
          · exact Or.inr (Or.inl (h.1.symm.trans h3))
          · exact Or.inr (Or.inr (h.1.symm.trans h3))
      | ok w =>
          obtain ⟨dq, s2⟩ := w
          rw [h2] at h
          simp only [check_loss_nan, Bool.false_eq_true, if_false] at h
          exact absurd h (by simp)

/-- A successful epoch loop leaves the scheduler, best-loss and CSV fields
untouched, and binds `logs` unless no batch was processed. -/
theorem epoch_loop_ok_spec (E : Externals G D OG OD Img Msk Sc) :
    ∀ (bs : List (Img × Msk)) (a a' : EpochAcc G D OG OD),
    epoch_loop E a bs = .ok a' →
    a'.st.schedG = a.st.schedG ∧ a'.st.schedD = a.st.schedD ∧
    a'.st.best_val_loss = a.st.best_val_loss ∧ a'.st.csv = a.st.csv ∧
    (bs = [] ∧ a' = a ∨ a'.logs.isSome = true)
  | [], a, a', h => by
      simp only [epoch_loop, Except.ok.injEq] at h
      subst h
      exact ⟨rfl, rfl, rfl, rfl, Or.inl ⟨rfl, rfl⟩⟩
  | (data, targets) :: rest, a, a', h => by
      simp only [epoch_loop] at h
      cases h1 : epoch_body E a data targets with
      | error p => rw [h1] at h; exact absurd h (by simp)
      | ok a1 =>
          rw [h1] at h
          obtain ⟨hG, hD, hB, hC, hL⟩ := epoch_loop_ok_spec E rest a1 a' h
          obtain ⟨bG, bD, bB, bC, bL⟩ := epoch_body_ok_spec E h1
          refine ⟨hG.trans bG, hD.trans bD, hB.trans bB, hC.trans bC, Or.inr ?_⟩
          rcases hL with ⟨_, rfl⟩ | hs
          · exact bL
          · exact hs

/-- Epoch-loop errors are NaN errors. -/
theorem epoch_loop_error_tag (E : Externals G D OG OD Img Msk Sc) :
    ∀ (bs : List (Img × Msk)) (a : EpochAcc G D OG OD)
      (e : TrainError) (sE : TrainerState G D OG OD),
    epoch_loop E a bs = .error (e, sE) →
    e = .nanGSeg ∨ e = .nanDReal ∨ e = .nanDFake
  | [], a, e, sE, h => by simp [epoch_loop] at h
  | (data, targets) :: rest, a, e, sE, h => by
      simp only [epoch_loop] at h
      cases h1 : epoch_body E a data targets with
      | error p =>
          rw [h1] at h
          simp only [Except.error.injEq] at h
          obtain ⟨e1, s1⟩ := p
          cases h
          exact epoch_body_error_tag E h1
      | ok a1 =>
          rw [h1] at h
          exact epoch_loop_error_tag E rest a1 e sE h

/-- A successful `train_one_epoch` leaves the scheduler, best-loss and CSV
fields of the trainer state untouched. -/
theorem train_one_epoch_ok_frame (E : Externals G D OG OD Img Msk Sc)
    {s s' : TrainerState G D OG OD} {bs : List (Img × Msk)}
    {tg td : ℚ} {logs : Metrics}
    (h : train_one_epoch E s bs = .ok (tg, td, logs, s')) :
    s'.schedG = s.schedG ∧ s'.schedD = s.schedD ∧
    s'.best_val_loss = s.best_val_loss ∧ s'.csv = s.csv := by
  unfold train_one_epoch at h
  cases h1 : epoch_loop E ⟨0, 0, 0, Metrics.zero, none, s⟩ bs with
  | error p => rw [h1] at h; exact absurd h (by simp)
  | ok a =>
      rw [h1] at h
      obtain ⟨hG, hD, hB, hC, _⟩ := epoch_loop_ok_spec E bs _ a h1
      rcases hl : bs.length with _ | n
      · rw [hl] at h; exact absurd h (by simp)
      · rw [hl] at h
        simp only [Nat.succ_ne_zero, if_false] at h
        cases h2 : a.logs with
        | none => rw [h2] at h; exact absurd h (by simp)
        | some lg =>
            rw [h2] at h
            simp only [Except.ok.injEq, Prod.mk.injEq] at h
            have hst : s' = a.st := h.2.2.2.symm
            subst hst
            exact ⟨hG, hD, hB, hC⟩

/-- A failing `train_one_epoch` on a non-empty loader is a NaN failure: the
end-of-epoch divisions by the loader length and the read of the loop-local
`logs` cannot be the cause. -/
theorem train_one_epoch_error_nonempty (E : Externals G D OG OD Img Msk Sc)
    {s sE : TrainerState G D OG OD} {bs : List (Img × Msk)} {e : TrainError}
    (hne : bs ≠ []) (h : train_one_epoch E s bs = .error (e, sE)) :
    e = .nanGSeg ∨ e = .nanDReal ∨ e = .nanDFake := by
  unfold train_one_epoch at h
  cases h1 : epoch_loop E ⟨0, 0, 0, Metrics.zero, none, s⟩ bs with
  | error p =>
      rw [h1] at h
      obtain ⟨e1, s1⟩ := p
      simp only [Except.error.injEq, Prod.mk.injEq] at h
      have htag := epoch_loop_error_tag E bs _ e1 s1 h1
      rw [h.1] at htag
      exact htag
  | ok a =>
      rw [h1] at h
      obtain ⟨_, _, _, _, hL⟩ := epoch_loop_ok_spec E bs _ a h1
      rcases hL with ⟨hbs, _⟩ | hs
      · exact absurd hbs hne
      · rcases hl : bs.length with _ | n
        · exact absurd (List.length_eq_zero.mp hl) hne
        · rw [hl] at h
          simp only [Nat.succ_ne_zero, if_false] at h
          cases h2 : a.logs with
          | none => rw [h2] at hs; simp at hs
          | some lg => rw [h2] at h; exact absurd h (by simp)

/-- The empty-loader failure of `train_one_epoch`: the loop never runs and
the average `total_g_loss / len(self.train_loader)` divides the integer zero
by zero. -/
theorem train_one_epoch_nil (E : Externals G D OG OD Img Msk Sc)
    (s : TrainerState G D OG OD) :
    train_one_epoch E s [] = .error (.zeroDivision, s) := rfl

/-! ### Lemmas about the validation loop -/

/-- The validation loop raises exactly when some batch's loss is NaN. -/
theorem validate_loop_error_iff (E : Externals G D OG OD Img Msk Sc) (gp : G) :
    ∀ (bs : List (Img × Msk)) (a : ValAcc),
    (∃ e, validate_loop E gp a bs = .error e) ↔
      ∃ b ∈ bs, val_batch_loss E gp b.1 b.2 = .nan
  | [], a => by simp [validate_loop]
  | (data, targets) :: rest, a => by
      simp only [validate_loop]
      cases hv : val_batch_loss E gp data targets with
      | nan => simp [hv]
      | num q =>
          rw [validate_loop_error_iff E gp rest]
          simp [hv]

/-- The only error the validation loop raises is the validation-loss NaN. -/
theorem validate_loop_error_tag (E : Externals G D OG OD Img Msk Sc) (gp : G) :
    ∀ (bs : List (Img × Msk)) (a : ValAcc) (e : TrainError),
    validate_loop E gp a bs = .error e → e = .nanVal
  | [], a, e, h => by simp [validate_loop] at h
  | (data, targets) :: rest, a, e, h => by
      simp only [validate_loop] at h
      cases hv : val_batch_loss E gp data targets with
      | nan => rw [hv] at h; simp only [Except.error.injEq] at h; exact h.symm
      | num q => rw [hv] at h; exact validate_loop_error_tag E gp rest _ e h

/-- A successful validation loop extends the displayed-loss list with each
batch's own loss divided by the running batch index. -/
theorem validate_loop_ok_shown (E : Externals G D OG OD Img Msk Sc) (gp : G) :
    ∀ (bs : List (Img × Msk)) (a a' : ValAcc),
    validate_loop E gp a bs = .ok a' →
    a'.shown = a.shown ++ shownOf E gp a.n bs
  | [], a, a', h => by
      simp only [validate_loop, Except.ok.injEq] at h
      subst h
      simp [shownOf]
  | (data, targets) :: rest, a, a', h => by
      simp only [validate_loop] at h
      cases hv : val_batch_loss E gp data targets with
      | nan => rw [hv] at h; exact absurd h (by simp)
      | num q =>
          rw [hv] at h
          have := validate_loop_ok_shown E gp rest _ a' h
          simp only [shownOf, val_loss_item, hv] at this ⊢
          rw [this]
          simp

/-- The displayed-loss list has one entry per batch. -/
theorem shownOf_length (E : Externals G D OG OD Img Msk Sc) (gp : G) :
    ∀ (bs : List (Img × Msk)) (n : ℕ), (shownOf E gp n bs).length = bs.length
  | [], _ => rfl
  | _ :: rest, n => by
      simp only [shownOf, List.length_cons]
      rw [shownOf_length E gp rest]

/-- The displayed value after batch `k` (zero-based) of a pass that started
at counter `n` is that batch's loss over `n + k + 1`. -/
theorem shownOf_get (E : Externals G D OG OD Img Msk Sc) (gp : G) :
    ∀ (bs : List (Img × Msk)) (n k : ℕ) (hk : k < bs.length)
      (hk2 : k < (shownOf E gp n bs).length),
    (shownOf E gp n bs).get ⟨k, hk2⟩ =
      val_loss_item E gp (bs.get ⟨k, hk⟩) / (n + k + 1)
  | [], n, k, hk, _ => absurd hk (by simp)
  | b :: rest, n, 0, hk, hk2 => by
      simp only [shownOf, List.get]
      norm_num
  | b :: rest, n, k + 1, hk, hk2 => by
      simp only [shownOf, List.get] at hk2 ⊢
      rw [shownOf_get E gp rest (n + 1) k (by simpa using hk) (by simpa using hk2)]
      push_cast
      ring_nf

/-! ### The step-decay closed form -/

/-- A scheduler started fresh and stepped `k` times has counted `k` epochs
and decayed its learning rate once per full `step_size` epochs:
`lr = initial_lr * gamma ^ (k / step_size)` with integer division. -/
theorem stepIter_closed_form (l0 gamma : ℚ) (ss : ℕ) :
    ∀ k : ℕ, StepLR.stepIter ⟨l0, gamma, ss, 0⟩ k =
      ⟨l0 * gamma ^ (k / ss), gamma, ss, k⟩
  | 0 => by simp [StepLR.stepIter]
  | k + 1 => by
      rw [StepLR.stepIter, stepIter_closed_form l0 gamma ss k, StepLR.step]
      by_cases h : (k + 1) % ss = 0
      · have hd : ss ∣ k + 1 := Nat.dvd_of_mod_eq_zero h
        simp only [h, if_true]
        rw [Nat.succ_div, if_pos hd]
        simp [pow_succ, mul_assoc]
      · have hd : ¬ ss ∣ k + 1 := fun hdvd => h (Nat.mod_eq_zero_of_dvd hdvd)
        simp only [h, if_false]
        rw [Nat.succ_div, if_neg hd]
        simp

/-- Stepping the start state once and iterating `k` times is iterating
`k + 1` times. -/
theorem stepIter_step_comm (s : StepLR) :
    ∀ k : ℕ, StepLR.stepIter s.step k = StepLR.stepIter s (k + 1)
  | 0 => rfl
  | k + 1 => by
      rw [StepLR.stepIter, stepIter_step_comm s k]
      rfl

/-! ### The running-minimum view of best-checkpoint selection -/

theorem runMin_nil (b : Option ℚ) : runMin b [] = b := rfl

theorem runMin_cons (b : Option ℚ) (v : ℚ) (vs : List ℚ) :
    runMin b (v :: vs) = runMin (if lt_best v b then some v else b) vs := rfl

theorem lt_best_some (v m : ℚ) : lt_best v (some m) = true ↔ v < m := by
  simp [lt_best]

theorem lt_best_none (v : ℚ) : lt_best v none = true := rfl

/-- Beating the running minimum of a list means beating the seed and every
element of the list. -/
theorem lt_best_runMin (v : ℚ) :
    ∀ (vs : List ℚ) (b : Option ℚ),
    lt_best v (runMin b vs) = true ↔
      (lt_best v b = true ∧ ∀ u ∈ vs, v < u)
  | [], b => by simp [runMin_nil]
  | u :: t, b => by
      rw [runMin_cons, lt_best_runMin v t]
      cases b with
      | none =>
          rw [if_pos (lt_best_none u)]
          simp only [lt_best_some, lt_best_none, List.mem_cons, true_and]
          constructor
          · rintro ⟨hvu, ht⟩
            intro x hx
            rcases hx with rfl | hx
            · exact hvu
            · exact ht x hx
          · intro ht
            exact ⟨ht u (Or.inl rfl), fun x hx => ht x (Or.inr hx)⟩
      | some m =>
          by_cases hum : u < m
          · rw [if_pos ((lt_best_some u m).mpr hum)]
            simp only [lt_best_some, List.mem_cons]
            constructor
            · rintro ⟨hvu, ht⟩
              refine ⟨hvu.trans hum, ?_⟩
              intro x hx
              rcases hx with rfl | hx
              · exact hvu
              · exact ht x hx
            · rintro ⟨hvm, ht⟩
              exact ⟨ht u (Or.inl rfl), fun x hx => ht x (Or.inr hx)⟩
          · rw [if_neg (fun hc => hum ((lt_best_some u m).mp hc))]
            simp only [lt_best_some, List.mem_cons]
            constructor
            · rintro ⟨hvm, ht⟩
              refine ⟨hvm, ?_⟩
              intro x hx
              rcases hx with rfl | hx
              · exact hvm.trans_le (le_of_not_lt hum)
              · exact ht x hx
            · rintro ⟨hvm, ht⟩
              exact ⟨hvm, fun x hx => ht x (Or.inr hx)⟩

/-! ### The epoch-level loop of `train` -/

theorem csv_row_values_length (epoch : ℕ) (tg td vl : ℚ) (logs tlogs : Metrics) :
    (csv_row_values epoch tg td vl logs tlogs).length = 16 := rfl

/-- What the end-of-epoch bookkeeping does to the state: one CSV row
appended, the best loss replaced exactly on strict improvement, both
schedulers stepped once, the parameters untouched, and `last_model` written
always with `best_gan_model` written exactly on improvement. -/
theorem epoch_finish_spec (epoch : ℕ) (tg td vl : ℚ) (logs tlogs : Metrics)
    (s1 : TrainerState G D OG OD) :
    (epoch_finish epoch tg td vl logs tlogs s1).1.schedG = s1.schedG.step ∧
    (epoch_finish epoch tg td vl logs tlogs s1).1.schedD = s1.schedD.step ∧
    (epoch_finish epoch tg td vl logs tlogs s1).1.best_val_loss =
      (if lt_best vl s1.best_val_loss then some vl else s1.best_val_loss) ∧
    (epoch_finish epoch tg td vl logs tlogs s1).1.csv = s1.csv ++
      [CsvLine.row (csv_row_values epoch tg td vl logs tlogs)] ∧
    (epoch_finish epoch tg td vl logs tlogs s1).2 =
      save_model (lt_best vl s1.best_val_loss) := by
  unfold epoch_finish
  by_cases hib : lt_best vl s1.best_val_loss = true
  · simp [hib]
  · simp only [Bool.not_eq_true] at hib
    simp [hib]

/-- The induction backbone of the epoch loop: a successful `train_loop` run
from `s` yields one record per epoch; the final schedulers are the initial
ones stepped once per epoch, the final CSV is the initial one plus one
16-value data row per epoch, the final best loss is the running minimum of
the epochs' validation losses seeded with the initial best, and the
checkpoints written at epoch `i` are `last_model` plus `best_gan_model`
exactly when epoch `i`'s validation loss beats the running minimum of the
seed and all earlier epochs' losses. -/
theorem train_loop_ok_spec (E : Externals G D OG OD Img Msk Sc) :
    ∀ (eds : List (EpochData Img Msk)) (s : TrainerState G D OG OD) (ep : ℕ)
      (sF : TrainerState G D OG OD) (recs : List EpochRecord),
    train_loop E s ep eds = .ok (sF, recs) →
    recs.length = eds.length ∧
    sF.schedG = StepLR.stepIter s.schedG eds.length ∧
    sF.schedD = StepLR.stepIter s.schedD eds.length ∧
    sF.best_val_loss = runMin s.best_val_loss (recs.map EpochRecord.val_loss) ∧
    (∃ rows : List (List ℚ), sF.csv = s.csv ++ rows.map CsvLine.row ∧
      rows.length = eds.length ∧ ∀ r ∈ rows, r.length = 16) ∧
    ∀ i (hi : i < recs.length),
      (recs.get ⟨i, hi⟩).saved = save_model (lt_best (recs.get ⟨i, hi⟩).val_loss
        (runMin s.best_val_loss ((recs.take i).map EpochRecord.val_loss)))
  | [], s, ep, sF, recs, h => by
      simp only [train_loop, Except.ok.injEq, Prod.mk.injEq] at h
      obtain ⟨rfl, rfl⟩ := h
      refine ⟨rfl, rfl, rfl, rfl, ⟨[], by simp, rfl, by simp⟩, ?_⟩
      intro i hi
      exact absurd hi (by simp)
  | ed :: rest, s, ep, sF, recs, h => by
      simp only [train_loop] at h
      cases h1 : train_one_epoch E s ed.trainB with
      | error p => rw [h1] at h; exact absurd h (by simp)
      | ok v =>
          obtain ⟨tg, td, tlogs, s1⟩ := v
          rw [h1] at h
          dsimp only at h
          cases h2 : validate E s1 ed.valB with
          | error p => rw [h2] at h; exact absurd h (by simp)
          | ok w =>
              obtain ⟨vl, logs, shown⟩ := w
              rw [h2] at h
              dsimp only at h
              cases h3 : train_loop E
                  (epoch_finish (ep + 1) tg td vl logs tlogs s1).1 (ep + 1) rest with
              | error p => rw [h3] at h; exact absurd h (by simp)
              | ok u =>
                  obtain ⟨sF', recs'⟩ := u
                  rw [h3] at h
                  simp only [Except.ok.injEq, Prod.mk.injEq] at h
                  obtain ⟨rfl, rfl⟩ := h
                  obtain ⟨hL, hG, hD, hB, ⟨rows', hcsv, hrl, hrw⟩, hsv⟩ :=
                    train_loop_ok_spec E rest _ (ep + 1) sF' recs' h3
                  obtain ⟨fG, fD, fB, fC, fS⟩ :=
                    epoch_finish_spec (ep + 1) tg td vl logs tlogs s1
                  obtain ⟨mG, mD, mB, mC⟩ := train_one_epoch_ok_frame E h1
                  refine ⟨by simp [hL], ?_, ?_, ?_, ?_, ?_⟩
                  · rw [hG, fG, mG, stepIter_step_comm]
                    simp
                  · rw [hD, fD, mD, stepIter_step_comm]
                    simp
                  · rw [hB, fB, mB]
                    simp only [List.map_cons, runMin_cons]
                  · refine ⟨csv_row_values (ep + 1) tg td vl logs tlogs :: rows', ?_, by simp [hrl], ?_⟩
                    · rw [hcsv, fC, mC]
                      simp
                    · intro r hr
                      rcases List.mem_cons.mp hr with rfl | hr
                      · exact csv_row_values_length _ _ _ _ _ _
                      · exact hrw r hr
                  · intro i hi
                    cases i with
                    | zero =>
                        simp only [List.get, List.take, List.map_nil, runMin_nil]
                        rw [fS, mB]
                    | succ i =>
                        have hi' : i < recs'.length := by
                          simpa using hi
                        have := hsv i hi'
                        simp only [List.get, List.take_succ_cons, List.map_cons,
                          runMin_cons]
                        rw [this, fB, mB]

/-! ### Claim theorems -/

/-- C1: per batch the protocol runs the generator step and then the
discriminator step; the generator step backpropagates the segmentation loss
through the generator optimizer only (discriminator parameters and optimizer
state untouched), and the discriminator step — operating on the detached fake
mask — leaves every generator parameter and the generator optimizer state
unchanged, whether it returns or raises; consequently, after the whole batch
body the generator parameters are exactly the generator-step update of the
pre-batch state, unaffected by the discriminator step that ran after it. -/
theorem claim_C1_step_isolation (E : Externals G D OG OD Img Msk Sc)
    (s : TrainerState G D OG OD) (a : EpochAcc G D OG OD)
    (data : Img) (mask_fakes targets : Msk) :
    (∀ q s', train_discriminator E s data mask_fakes targets = .ok (q, s') →
      s'.gParams = s.gParams ∧ s'.optG = s.optG) ∧
    (∀ e s', train_discriminator E s data mask_fakes targets = .error (e, s') →
      s'.gParams = s.gParams ∧ s'.optG = s.optG) ∧
    (∀ q fm s', train_generator E s data targets = .ok (q, fm, s') →
      s'.dParams = s.dParams ∧ s'.optD = s.optD ∧
      s'.gParams = (E.stepG s.optG s.gParams data targets).1) ∧
    (∀ a', epoch_body E a data targets = .ok a' →
      a'.st.gParams = (E.stepG a.st.optG a.st.gParams data targets).1 ∧
      a'.st.optG = (E.stepG a.st.optG a.st.gParams data targets).2) := by
  refine ⟨?_, ?_, ?_, ?_⟩
  · intro q s' h
    rw [train_discriminator_ok_state E h]
    exact ⟨rfl, rfl⟩
  · intro e s' h
    rw [train_discriminator_error_state E h]
    exact ⟨rfl, rfl⟩
  · intro q fm s' h
    rw [train_generator_ok_state E h]
    exact ⟨rfl, rfl, rfl⟩
  · intro a' h
    unfold epoch_body at h
    cases h1 : train_generator E a.st data targets with
    | error p => rw [h1] at h; exact absurd h (by simp)
    | ok v =>
        obtain ⟨q, fm, s1⟩ := v
        rw [h1] at h
        simp only [check_loss_nan, Bool.false_eq_true, if_false] at h
        cases h2 : train_discriminator E s1 data fm targets with
        | error p => rw [h2] at h; exact absurd h (by simp)
        | ok w =>
            obtain ⟨dq, s2⟩ := w
            rw [h2] at h
            simp only [check_loss_nan, Bool.false_eq_true, if_false,
              Except.ok.injEq] at h
            subst h
            rw [train_discriminator_ok_state E h2, train_generator_ok_state E h1]
            exact ⟨rfl, rfl⟩

/-- C1 witness: on concrete rational externals and state, the discriminator
step succeeds and leaves the generator parameters and optimizer state
unchanged. -/
theorem claim_C1_step_isolation_witness :
    train_discriminator exOk s0Q 0 0 0 =
      .ok (2, { s0Q with dParams := 1 }) ∧
    (({ s0Q with dParams := 1 } : TrainerState ℚ ℚ ℚ ℚ).gParams = s0Q.gParams ∧
      ({ s0Q with dParams := 1 } : TrainerState ℚ ℚ ℚ ℚ).optG = s0Q.optG) := by
  have hrun : train_discriminator exOk s0Q 0 0 0 =
      .ok (2, { s0Q with dParams := 1 }) := by
    norm_num [train_discriminator, exOk, s0Q, detach]
  exact ⟨hrun, (claim_C1_step_isolation exOk s0Q ⟨0, 0, 0, Metrics.zero, none, s0Q⟩
    0 0 0).1 2 _ hrun⟩

/-- C4: on any input whose generator-step or discriminator-step loss is NaN,
the step raises the fatal condition before its optimizer step runs, returning
exactly the pre-step trainer state — so no weight of either sub-network is
updated by the failing step. -/
theorem claim_C4_nan_before_update (E : Externals G D OG OD Img Msk Sc)
    (s : TrainerState G D OG OD) (data : Img) (mask_fakes targets : Msk) :
    (gen_loss E s data targets = .nan →
      train_generator E s data targets = .error (.nanGSeg, s)) ∧
    (d_real_loss E s data targets = .nan →
      train_discriminator E s data mask_fakes targets = .error (.nanDReal, s)) ∧
    (∀ q1, d_real_loss E s data targets = .num q1 →
      d_fake_loss E s data mask_fakes = .nan →
      train_discriminator E s data mask_fakes targets = .error (.nanDFake, s)) ∧
    (∀ e s', train_generator E s data targets = .error (e, s') → s' = s) ∧
    (∀ e s', train_discriminator E s data mask_fakes targets = .error (e, s') →
      s' = s) := by
  refine ⟨?_, ?_, ?_,
    fun e s' h => train_generator_error_state E h,
    fun e s' h => train_discriminator_error_state E h⟩
  · intro hg
    rw [train_generator_eq, hg]
  · intro hr
    rw [train_discriminator_eq, hr]
  · intro q1 hr hf
    rw [train_discriminator_eq, hr, hf]

/-- C4 witness: with NaN-producing losses, both steps raise their NaN error
with the concrete state unchanged. -/
theorem claim_C4_nan_before_update_witness :
    train_generator exNan s0Q 0 0 = .error (.nanGSeg, s0Q) ∧
    train_discriminator exNan s0Q 0 0 0 = .error (.nanDReal, s0Q) :=
  ⟨(claim_C4_nan_before_update exNan s0Q 0 0 0).1 rfl,
   (claim_C4_nan_before_update exNan s0Q 0 0 0).2.1 rfl⟩

/-- C8: the discriminator step's returned (and backpropagated) loss is the
sum of the binary cross-entropy of the real pair's score against the constant
soft label 0.9 and of the detached-fake pair's score against the constant
zero label. -/
theorem claim_C8_d_loss_sum (E : Externals G D OG OD Img Msk Sc)
    (s : TrainerState G D OG OD) (data : Img) (mask_fakes targets : Msk)
    (q : ℚ) (s' : TrainerState G D OG OD)
    (h : train_discriminator E s data mask_fakes targets = .ok (q, s')) :
    ∃ q1 q2, d_real_loss E s data targets = .num q1 ∧
      d_fake_loss E s data mask_fakes = .num q2 ∧ q = q1 + q2 := by
  rw [train_discriminator_eq] at h
  cases hr : d_real_loss E s data targets with
  | nan => rw [hr] at h; exact absurd h (by simp)
  | num q1 =>
      rw [hr] at h
      cases hf : d_fake_loss E s data mask_fakes with
      | nan => rw [hf] at h; exact absurd h (by simp)
      | num q2 =>
          rw [hf] at h
          simp only [Except.ok.injEq, Prod.mk.injEq] at h
          exact ⟨q1, q2, rfl, rfl, h.1.symm⟩

/-- C8 witness: on the concrete externals both BCE losses are 1 and the
returned discriminator loss is their sum 2. -/
theorem claim_C8_d_loss_sum_witness :
    ∃ q1 q2, d_real_loss exOk s0Q 0 0 = .num q1 ∧
      d_fake_loss exOk s0Q 0 0 = .num q2 ∧ (2 : ℚ) = q1 + q2 :=
  claim_C8_d_loss_sum exOk s0Q 0 0 0 2 { s0Q with dParams := 1 }
    (by norm_num [train_discriminator, exOk, s0Q, detach])

/-- C9: the loss value of the generator training step is a deterministic
function of the generator weights and the batch: two trainer states with the
same generator parameters (whatever their other components) yield the same
generator-step loss result on the same batch. -/
theorem claim_C9_generator_determinism (E : Externals G D OG OD Img Msk Sc)
    (s1 s2 : TrainerState G D OG OD) (data : Img) (targets : Msk)
    (h : s1.gParams = s2.gParams) :
    gen_loss_result E s1 data targets = gen_loss_result E s2 data targets := by
  unfold gen_loss_result
  rw [train_generator_eq E s1, train_generator_eq E s2]
  unfold gen_loss
  rw [h]
  cases hv : E.generator_loss (E.generate s2.gParams data) targets <;> simp [hv]

/-- C9 witness: two concrete states sharing generator weights but with
different discriminator weights produce the same generator-step loss. -/
theorem claim_C9_generator_determinism_witness :
    gen_loss_result exOk s0Q 0 0 =
      gen_loss_result exOk { s0Q with dParams := 42 } 0 0 :=
  claim_C9_generator_determinism exOk s0Q { s0Q with dParams := 42 } 0 0 rfl

/-- C3: NaN is detected immediately after each of the four loss computations
and is fatal.  The generator step raises the generator-loss NaN error exactly
when the generator loss is NaN; the discriminator step raises the real-loss
NaN error exactly when the real loss is NaN, and the fake-loss NaN error
exactly when the real loss is finite and the fake loss is NaN; validation
raises the validation NaN error exactly when some validation batch's loss is
NaN; and a raise from the epoch's training pass or validation pass aborts the
whole epoch loop with that same error — there is no retry or recovery, and no
other error class is produced or intercepted by these checks. -/
theorem claim_C3_nan_fatal (E : Externals G D OG OD Img Msk Sc)
    (s : TrainerState G D OG OD) (data : Img) (mask_fakes targets : Msk)
    (bs : List (Img × Msk)) (ed : EpochData Img Msk)
    (rest : List (EpochData Img Msk)) (ep : ℕ) :
    ((∃ s', train_generator E s data targets = .error (.nanGSeg, s')) ↔
      gen_loss E s data targets = .nan) ∧
    ((∃ s', train_discriminator E s data mask_fakes targets =
        .error (.nanDReal, s')) ↔ d_real_loss E s data targets = .nan) ∧
    ((∃ s', train_discriminator E s data mask_fakes targets =
        .error (.nanDFake, s')) ↔
      (d_real_loss E s data targets ≠ .nan ∧
        d_fake_loss E s data mask_fakes = .nan)) ∧
    ((∃ s', validate E s bs = .error (.nanVal, s')) ↔
      ∃ b ∈ bs, val_batch_loss E s.gParams b.1 b.2 = .nan) ∧
    (∀ e sE, train_one_epoch E s ed.trainB = .error (e, sE) →
      train_loop E s ep (ed :: rest) = .error (e, sE)) ∧
    (∀ tg td tlogs s1 e sE,
      train_one_epoch E s ed.trainB = .ok (tg, td, tlogs, s1) →
      validate E s1 ed.valB = .error (e, sE) →
      train_loop E s ep (ed :: rest) = .error (e, sE)) := by
  refine ⟨?_, ?_, ?_, ?_, ?_, ?_⟩
  · rw [train_generator_eq]
    cases hg : gen_loss E s data targets with
    | nan => simp
    | num q => simp
  · rw [train_discriminator_eq]
    cases hr : d_real_loss E s data targets with
    | nan => simp
    | num q1 =>
        cases hf : d_fake_loss E s data mask_fakes with
        | nan => simp
        | num q2 => simp
  · rw [train_discriminator_eq]
    cases hr : d_real_loss E s data targets with
    | nan => simp
    | num q1 =>
        cases hf : d_fake_loss E s data mask_fakes with
        | nan => simp
        | num q2 => simp
  · unfold validate
    cases hl : validate_loop E s.gParams ⟨0, 0, Metrics.zero, []⟩ bs with
    | error e =>
        have htag := validate_loop_error_tag E s.gParams bs _ e hl
        subst htag
        constructor
        · intro _
          exact (validate_loop_error_iff E s.gParams bs _).mp ⟨_, hl⟩
        · intro _
          exact ⟨s, by simp⟩
    | ok a =>
        constructor
        · intro ⟨s', h⟩
          rcases hn : bs.length with _ | n
          · rw [hn] at h; exact absurd h (by simp)
          · rw [hn] at h
            simp only [Nat.succ_ne_zero, if_false] at h
            exact absurd h (by simp)
        · intro hb
          obtain ⟨e, he⟩ := (validate_loop_error_iff E s.gParams bs _).mpr hb
          rw [he] at hl
          exact absurd hl (by simp)
  · intro e sE h
    simp only [train_loop, h]
  · intro tg td tlogs s1 e sE h1 h2
    simp only [train_loop, h1, h2]

/-- C3 witness: on the NaN-producing externals the concrete generator loss is
NaN, the generator step raises exactly the generator-loss NaN error, and the
whole one-epoch loop aborts with that same error and the untouched state. -/
theorem claim_C3_nan_fatal_witness :
    gen_loss exNan s0Q 0 0 = .nan ∧
    (∃ s', train_generator exNan s0Q 0 0 = .error (.nanGSeg, s')) ∧
    train_loop exNan s0Q 0 [⟨[(0, 0)], [(0, 0)]⟩] = .error (.nanGSeg, s0Q) := by
  have hth := claim_C3_nan_fatal exNan s0Q 0 0 0 [((0 : ℚ), (0 : ℚ))]
    ⟨[(0, 0)], [(0, 0)]⟩ [] 0
  have hepoch : train_one_epoch exNan s0Q [((0 : ℚ), (0 : ℚ))] =
      .error (.nanGSeg, s0Q) := by
    norm_num [train_one_epoch, epoch_loop, epoch_body, train_generator,
      exNan, s0Q]
  exact ⟨rfl, hth.1.mpr rfl, hth.2.2.2.2.1 .nanGSeg s0Q hepoch⟩

/-- C10: an empty training loader makes `train_one_epoch` fail with the
zero-division error of `total_g_loss / len(self.train_loader)` (the state at
the raise being the input state, so no zero losses are returned), while on a
non-empty loader neither the zero-division failure nor the unbound-`logs`
failure can occur — any raise is one of the NaN errors. -/
theorem claim_C10_empty_loader (E : Externals G D OG OD Img Msk Sc)
    (s : TrainerState G D OG OD) (bs : List (Img × Msk)) :
    train_one_epoch E s [] = .error (.zeroDivision, s) ∧
    (bs ≠ [] → ∀ e sE, train_one_epoch E s bs = .error (e, sE) →
      e ≠ .zeroDivision ∧ e ≠ .unboundLocal) := by
  refine ⟨train_one_epoch_nil E s, ?_⟩
  intro hne e sE h
  rcases train_one_epoch_error_nonempty E hne h with rfl | rfl | rfl <;>
    exact ⟨by simp, by simp⟩

/-- C10 witness: the empty-loader failure on a concrete state, and a
non-empty loader whose NaN failure is neither the zero-division nor the
unbound-`logs` failure. -/
theorem claim_C10_empty_loader_witness :
    train_one_epoch exNan s0Q ([] : List (ℚ × ℚ)) = .error (.zeroDivision, s0Q) ∧
    (TrainError.nanGSeg ≠ .zeroDivision ∧ TrainError.nanGSeg ≠ .unboundLocal) := by
  refine ⟨(claim_C10_empty_loader exNan s0Q [(0, 0)]).1, ?_⟩
  exact (claim_C10_empty_loader exNan s0Q [(0, 0)]).2 (by simp) .nanGSeg s0Q
    (by norm_num [train_one_epoch, epoch_loop, epoch_body, train_generator,
      exNan, s0Q])

/-- C2: with the best-seen value initialized to infinity, the
`best_gan_model` checkpoint is written at epoch `i` exactly when epoch `i`'s
validation loss is strictly below every previous epoch's validation loss,
and the `last_model` checkpoint is written at every epoch unconditionally. -/
theorem claim_C2_best_checkpoint (E : Externals G D OG OD Img Msk Sc)
    (s0 : TrainerState G D OG OD) (eds : List (EpochData Img Msk))
    (sF : TrainerState G D OG OD) (recs : List EpochRecord)
    (hbest : s0.best_val_loss = none)
    (h : GANTrainer.train E s0 eds = .ok (sF, recs))
    (i : ℕ) (hi : i < recs.length) :
    recs.length = eds.length ∧
    Ckpt.last ∈ (recs.get ⟨i, hi⟩).saved ∧
    (Ckpt.best ∈ (recs.get ⟨i, hi⟩).saved ↔
      ∀ j (hj : j < i),
        (recs.get ⟨i, hi⟩).val_loss < (recs.get ⟨j, hj.trans hi⟩).val_loss) := by
  unfold GANTrainer.train at h
  obtain ⟨hL, _, _, _, _, hsv⟩ := train_loop_ok_spec E eds _ 0 sF recs h
  have hseed : ({ s0 with csv := [CsvLine.header csv_fields] } :
      TrainerState G D OG OD).best_val_loss = none := hbest
  rw [hseed] at hsv
  refine ⟨hL, ?_, ?_⟩
  · rw [hsv i hi]
    cases lt_best (recs.get ⟨i, hi⟩).val_loss
        (runMin none ((recs.take i).map EpochRecord.val_loss)) <;>
      simp [save_model]
  · rw [hsv i hi]
    have hmem : ∀ b : Bool, (Ckpt.best ∈ save_model b ↔ b = true) := by
      intro b; cases b <;> simp [save_model]
    rw [hmem, lt_best_runMin]
    rw [show lt_best (recs.get ⟨i, hi⟩).val_loss none = true from rfl]
    simp only [true_and]
    constructor
    · intro hall j hj
      have hj2 : j < (recs.take i).length := by
        simp only [List.length_take, lt_min_iff]
        exact ⟨hj, hj.trans hi⟩
      have hget : (recs.take i).get ⟨j, hj2⟩ = recs.get ⟨j, hj.trans hi⟩ := by
        simp [List.get_eq_getElem, List.getElem_take]
      have := hall ((recs.take i).get ⟨j, hj2⟩).val_loss
        (List.mem_map_of_mem _ (List.get_mem _ _ _))
      rw [hget] at this
      exact this
    · intro hall u hu
      obtain ⟨r, hr, rfl⟩ := List.mem_map.mp hu
      obtain ⟨⟨j, hj2⟩, rfl⟩ := List.mem_iff_get.mp hr
      have hj : j < i := by
        have h3 := hj2
        simp only [List.length_take, lt_min_iff] at h3
        exact h3.1
      have hget : (recs.take i).get ⟨j, hj2⟩ = recs.get ⟨j, hj.trans hi⟩ := by
        simp [List.get_eq_getElem, List.getElem_take]
      rw [hget]
      exact hall j hj

/-- C2 witness: in the concrete two-epoch run (validation losses 1 and 1,
best initialized at infinity) epoch 2 writes `last_model` and not
`best_gan_model`, since 1 does not strictly beat 1. -/
theorem claim_C2_best_checkpoint_witness :
    recs2.length = edsTwo.length ∧
    Ckpt.last ∈ (recs2.get ⟨1, by decide⟩).saved ∧
    (Ckpt.best ∈ (recs2.get ⟨1, by decide⟩).saved ↔
      ∀ j (hj : j < 1),
        (recs2.get ⟨1, by decide⟩).val_loss <
          (recs2.get ⟨j, hj.trans (by decide)⟩).val_loss) := by
  have hrun : GANTrainer.train exOk s0Q edsTwo = .ok (sF2, recs2) := by
    norm_num [GANTrainer.train, train_loop, train_one_epoch, epoch_loop,
      epoch_body, train_generator, train_discriminator, validate,
      validate_loop, val_batch_loss, epoch_finish, exOk, s0Q, edsTwo, sF2,
      recs2, Metrics.zero, Metrics.add, Metrics.divNat, check_loss_nan,
      detach, lt_best, save_model, csv_row_values, StepLR.step, csv_fields]
  exact claim_C2_best_checkpoint exOk s0Q edsTwo sF2 recs2 rfl hrun 1 (by decide)

/-- C5 (amended): after a successful `N`-epoch run the metrics CSV has
exactly `N + 1` lines — the header written once at setup followed by one
16-value data row per epoch.  Its columns are `epoch`, the train generator
and discriminator losses, a single validation loss (the generator's
segmentation loss on the validation set — there is no validation
discriminator loss column), the six validation metrics and the six training
metrics, as listed in `csv_fields`. -/
theorem claim_C5_csv_shape (E : Externals G D OG OD Img Msk Sc)
    (s0 : TrainerState G D OG OD) (eds : List (EpochData Img Msk))
    (sF : TrainerState G D OG OD) (recs : List EpochRecord)
    (h : GANTrainer.train E s0 eds = .ok (sF, recs))
    (k : ℕ) (hk : k < sF.csv.tail.length) :
    sF.csv.length = eds.length + 1 ∧
    sF.csv.head? = some (CsvLine.header csv_fields) ∧
    csv_fields.length = 16 ∧
    sF.csv.tail.length = eds.length ∧
    is_data_row (sF.csv.tail.get ⟨k, hk⟩) = true := by
  unfold GANTrainer.train at h
  obtain ⟨_, _, _, _, ⟨rows, hcsv, hrl, hrw⟩, _⟩ :=
    train_loop_ok_spec E eds _ 0 sF recs h
  have hc : sF.csv = CsvLine.header csv_fields :: rows.map CsvLine.row := by
    rw [hcsv]
    simp
  refine ⟨?_, ?_, rfl, ?_, ?_⟩
  · rw [hc]; simp [hrl]
  · rw [hc]; rfl
  · rw [hc]; simp [hrl]
  · have htail : sF.csv.tail = rows.map CsvLine.row := by rw [hc]; rfl
    rw [List.get_of_eq htail]
    simp only [List.get_eq_getElem, List.getElem_map, is_data_row]
    simp [hrw _ (List.getElem_mem _)]

/-- C5 counterexample: the claim's column set — epoch, train and validation
generator and discriminator losses, and six metrics for both phases — has 17
columns, but every header and data row the trainer writes has 16: there is no
validation discriminator loss column. -/
theorem claim_C5_counterexample :
    (csv_row_values 1 1 2 1 Metrics.zero Metrics.zero).length = 16 ∧
    csv_fields.length = 16 ∧ claimed_column_count = 17 ∧
    csv_fields.length ≠ claimed_column_count := by
  exact ⟨rfl, rfl, rfl, by decide⟩

/-- C5 witness: the concrete two-epoch run ends with a three-line CSV (header
plus two 16-value rows). -/
theorem claim_C5_csv_shape_witness :
    sF2.csv.length = edsTwo.length + 1 ∧
    sF2.csv.head? = some (CsvLine.header csv_fields) ∧
    csv_fields.length = 16 ∧
    sF2.csv.tail.length = edsTwo.length ∧
    is_data_row (sF2.csv.tail.get ⟨0, by decide⟩) = true := by
  have hrun : GANTrainer.train exOk s0Q edsTwo = .ok (sF2, recs2) := by
    norm_num [GANTrainer.train, train_loop, train_one_epoch, epoch_loop,
      epoch_body, train_generator, train_discriminator, validate,
      validate_loop, val_batch_loss, epoch_finish, exOk, s0Q, edsTwo, sF2,
      recs2, Metrics.zero, Metrics.add, Metrics.divNat, check_loss_nan,
      detach, lt_best, save_model, csv_row_values, StepLR.step, csv_fields]
  exact claim_C5_csv_shape exOk s0Q edsTwo sF2 recs2 hrun 0 (by decide)

/-- C7: both schedulers step exactly once per epoch, and after a successful
`N`-epoch run each optimizer's learning rate is its configured initial rate
times `gamma ^ (N / step_size)` (integer division), with `gamma` and
`step_size` shared between the two schedulers as the configuration
prescribes. -/
theorem claim_C7_lr_schedule (E : Externals G D OG OD Img Msk Sc)
    (s0 : TrainerState G D OG OD) (eds : List (EpochData Img Msk))
    (sF : TrainerState G D OG OD) (recs : List EpochRecord)
    (l0g l0d gamma : ℚ) (ss : ℕ) (hss : 0 < ss)
    (hG : s0.schedG = ⟨l0g, gamma, ss, 0⟩)
    (hD : s0.schedD = ⟨l0d, gamma, ss, 0⟩)
    (h : GANTrainer.train E s0 eds = .ok (sF, recs)) :
    sF.schedG.last_epoch = eds.length ∧
    sF.schedD.last_epoch = eds.length ∧
    sF.schedG.lr = l0g * gamma ^ (eds.length / ss) ∧
    sF.schedD.lr = l0d * gamma ^ (eds.length / ss) := by
  unfold GANTrainer.train at h
  obtain ⟨_, hSG, hSD, _, _, _⟩ := train_loop_ok_spec E eds _ 0 sF recs h
  have hseedG : ({ s0 with csv := [CsvLine.header csv_fields] } :
      TrainerState G D OG OD).schedG = ⟨l0g, gamma, ss, 0⟩ := hG
  have hseedD : ({ s0 with csv := [CsvLine.header csv_fields] } :
      TrainerState G D OG OD).schedD = ⟨l0d, gamma, ss, 0⟩ := hD
  rw [hseedG, stepIter_closed_form] at hSG
  rw [hseedD, stepIter_closed_form] at hSD
  rw [hSG, hSD]
  exact ⟨rfl, rfl, rfl, rfl⟩

/-- C7 witness: in the concrete two-epoch run with initial rate 1, decay 1/2
and step size 2, both schedulers have counted 2 epochs and decayed exactly
once: the learning rate is 1 * (1/2)^(2/2). -/
theorem claim_C7_lr_schedule_witness :
    sF2.schedG.last_epoch = edsTwo.length ∧
    sF2.schedD.last_epoch = edsTwo.length ∧
    sF2.schedG.lr = 1 * (1 / 2 : ℚ) ^ (edsTwo.length / 2) ∧
    sF2.schedD.lr = 1 * (1 / 2 : ℚ) ^ (edsTwo.length / 2) := by
  have hrun : GANTrainer.train exOk s0Q edsTwo = .ok (sF2, recs2) := by
    norm_num [GANTrainer.train, train_loop, train_one_epoch, epoch_loop,
      epoch_body, train_generator, train_discriminator, validate,
      validate_loop, val_batch_loss, epoch_finish, exOk, s0Q, edsTwo, sF2,
      recs2, Metrics.zero, Metrics.add, Metrics.divNat, check_loss_nan,
      detach, lt_best, save_model, csv_row_values, StepLR.step, csv_fields]
  exact claim_C7_lr_schedule exOk s0Q edsTwo sF2 recs2 1 1 (1/2) 2
    (by decide) rfl rfl hrun

/-- C6 (amended): the validation loop's displayed current-average loss after
batch `k` is the `k`-th batch's own loss divided by the batch index `k` — not
the cumulative validation loss so far divided by `k`. -/
theorem claim_C6_shown_value (E : Externals G D OG OD Img Msk Sc)
    (s : TrainerState G D OG OD) (bs : List (Img × Msk))
    (avg : ℚ) (m : Metrics) (shown : List ℚ)
    (h : validate E s bs = .ok (avg, m, shown))
    (k : ℕ) (hk : k < bs.length) (hk2 : k < shown.length) :
    shown.length = bs.length ∧
    shown.get ⟨k, hk2⟩ = val_loss_item E s.gParams (bs.get ⟨k, hk⟩) / (k + 1) := by
  unfold validate at h
  cases hl : validate_loop E s.gParams ⟨0, 0, Metrics.zero, []⟩ bs with
  | error e => rw [hl] at h; exact absurd h (by simp)
  | ok a =>
      rw [hl] at h
      dsimp only at h
      by_cases hn : bs.length = 0
      · exact absurd hk (hn ▸ Nat.not_lt_zero k)
      · rw [if_neg hn] at h
        simp only [Except.ok.injEq, Prod.mk.injEq] at h
        have hshown : shown = shownOf E s.gParams 0 bs := by
          rw [← h.2.2]
          simpa using validate_loop_ok_shown E s.gParams bs _ a hl
        subst hshown
        refine ⟨shownOf_length E s.gParams bs 0, ?_⟩
        rw [shownOf_get E s.gParams bs 0 k hk hk2]
        norm_num

/-- C6 counterexample: a validation pass of two batches with loss 1 each
displays 1/2 after batch 2, whereas the cumulative loss so far divided by the
batch index is (1 + 1) / 2 = 1. -/
theorem claim_C6_counterexample :
    validate exOk s0Q [((0 : ℚ), (0 : ℚ)), (0, 0)] =
      .ok (1, Metrics.zero, [1, 1/2]) ∧
    ([(1 : ℚ), 1/2].get ⟨1, by decide⟩ ≠ ((1 : ℚ) + 1) / 2) := by
  constructor
  · norm_num [validate, validate_loop, val_batch_loss, exOk, s0Q,
      Metrics.zero, Metrics.add, Metrics.divNat]
  · norm_num [List.get]

/-- C6 witness: in that concrete pass the displayed value after batch 2 is
the second batch's loss 1 divided by the index 2. -/
theorem claim_C6_shown_value_witness :
    ([(1 : ℚ), 1/2] : List ℚ).length =
      ([((0 : ℚ), (0 : ℚ)), (0, 0)] : List (ℚ × ℚ)).length ∧
    ([(1 : ℚ), 1/2] : List ℚ).get ⟨1, by decide⟩ =
      val_loss_item exOk s0Q.gParams
        (([((0 : ℚ), (0 : ℚ)), (0, 0)] : List (ℚ × ℚ)).get ⟨1, by decide⟩) / (1 + 1) := by
  have hrun : validate exOk s0Q [((0 : ℚ), (0 : ℚ)), (0, 0)] =
      .ok (1, Metrics.zero, [1, 1/2]) := by
    norm_num [validate, validate_loop, val_batch_loss, exOk, s0Q,
      Metrics.zero, Metrics.add, Metrics.divNat]
  exact claim_C6_shown_value exOk s0Q [((0 : ℚ), (0 : ℚ)), (0, 0)] 1
    Metrics.zero [1, 1/2] hrun 1 (by decide) (by decide)

end Trainer

end LGPS
